import Mathlib

/-!
# Verification of `s3_bucket_metrics.py`

A shallow embedding of the single-file tool that queries S3 bucket metrics
from CloudWatch and renders a tabular report, together with theorems settling
the specification claims about it.

Modelling conventions:
* Python dictionaries with dynamic keys are association lists over `String`;
  the heterogeneous values occurring in CloudWatch datapoints are modelled by
  `PyVal` (numbers as exact rationals, strings, and Python `None`).
* Exceptions are modelled with `Except PyExn`; `sys.exit(n)` raises the
  Python `SystemExit` exception, modelled by `PyExn.systemExit n`.
* Network interactions (CloudWatch `get_metric_statistics`, S3 `list_buckets`,
  profile resolution by `boto3.Session`) are an environment `Env` supplied to
  the pipeline; each CloudWatch invocation is recorded in a call trace so that
  the number and order of gateway round-trips is observable.
* The wall-clock query window (`StartTime`/`EndTime` around `datetime.now()`)
  is not part of the call record: no claim depends on it.
-/

/-- A Python value as it occurs in a CloudWatch datapoint dictionary:
a number (Python `int`/`float`, modelled exactly as a rational),
a string, or `None`. -/
inductive PyVal where
  | num (q : ℚ)
  | str (s : String)
  | nonePy
deriving DecidableEq, Repr

/-- A Python exception. `systemExit n` models `sys.exit(n)` (which raises
`SystemExit`); `typeError`/`valueError` model the builtin exceptions;
`apiError` models any error raised by the underlying AWS SDK call. -/
inductive PyExn where
  | systemExit (code : Int)
  | typeError (msg : String)
  | valueError (msg : String)
  | apiError (msg : String)
deriving DecidableEq, Repr

/-- A CloudWatch datapoint: a Python dict with string keys
(e.g. `"Sum"`, `"Unit"`, `"Timestamp"`). -/
def Datapoint : Type := List (String × PyVal)

instance : DecidableEq Datapoint := by
  unfold Datapoint
  infer_instance

/-- Python dict lookup `d[k]`, `none` when the key is absent (a `KeyError`). -/
def Datapoint.lookup (d : Datapoint) (k : String) : Option PyVal :=
  (List.find? (fun p => p.1 = k) d).map (fun p => p.2)

/-- The response of `client.get_metric_statistics`. `datapoints = none`
models a malformed response lacking the `"Datapoints"` key (so that
`result["Datapoints"]` raises `KeyError`); otherwise it is the list bound
to that key. -/
structure CwResponse where
  datapoints : Option (List Datapoint)
deriving DecidableEq

/-- The observable parameters of one `get_metric_statistics` round-trip:
the two dimensions (`BucketName`, `StorageType`), the metric name and the
requested statistic. `Namespace = "AWS/S3"` and `Period = 86400` are fixed
constants of the source and carry no information; the `StartTime`/`EndTime`
pair is wall-clock and not modelled. -/
structure CwCall where
  bucket : String
  stg_type : String
  metric : String
  statistic : String
deriving DecidableEq, Repr

/-- The sample dictionary returned by `get_s3_metric`:
`{'Value': ..., 'Unit': ...}`. -/
structure MetricSample where
  value : PyVal
  unit : PyVal
deriving DecidableEq, Repr

/-- `CwMetric` (source line 76): wraps the CloudWatch client. The client is
the environment's behaviour of `get_metric_statistics`: for given call
parameters, either a response or a raised SDK error. -/
structure CwMetric where
  client : CwCall → Except PyExn CwResponse

/-- The body of the `try:` block in `get_s3_metric` (source lines 95-99):
`{'Value': result["Datapoints"][0][statistic], 'Unit': result['Datapoints'][0]['Unit']}`.
`none` when any of the lookups raises (`KeyError` on `"Datapoints"` or on the
statistic/`'Unit'` keys, `IndexError` on `[0]`), which the bare `except:`
turns into the fallback. -/
def extractSample (result : CwResponse) (statistic : String) : Option MetricSample := do
  let dps ← result.datapoints
  let dp ← dps.head?
  let v ← dp.lookup statistic
  let u ← dp.lookup "Unit"
  pure ⟨v, u⟩

/-- Core of `CwMetric.get_s3_metric` (source lines 83-104) as a function of
the outcome of the `get_metric_statistics` call. The call itself (lines
85-94) is OUTSIDE the `try:` block, so an exception it raises propagates;
only the extraction (lines 95-99) is guarded, and the bare `except:` returns
`{'Value': 0, 'Unit': None}`. -/
def get_s3_metricResult (callResult : Except PyExn CwResponse) (statistic : String) :
    Except PyExn MetricSample :=
  match callResult with
  | .error e => .error e
  | .ok result =>
    .ok (match extractSample result statistic with
         | some s => s
         | none => ⟨.num 0, .nonePy⟩)

/-- `CwMetric.get_s3_metric` (source lines 83-104). Returns the outcome
together with the single CloudWatch call it issues. The Python default
argument `statistic='Sum'` is passed explicitly by all callers here. -/
def CwMetric.get_s3_metric (cw : CwMetric) (bucket metric stg_type statistic : String) :
    Except PyExn MetricSample × CwCall :=
  let call : CwCall := ⟨bucket, stg_type, metric, statistic⟩
  (get_s3_metricResult (cw.client call) statistic, call)

/-- `CwMetric.get_bucket_size` (source lines 106-108). -/
def CwMetric.get_bucket_size (cw : CwMetric) (bucket : String) :
    Except PyExn MetricSample × CwCall :=
  cw.get_s3_metric bucket "BucketSizeBytes" "StandardStorage" "Sum"

/-- `CwMetric.get_bucket_object_count` (source lines 110-112). -/
def CwMetric.get_bucket_object_count (cw : CwMetric) (bucket : String) :
    Except PyExn MetricSample × CwCall :=
  cw.get_s3_metric bucket "NumberOfObjects" "AllStorageTypes" "Sum"

/-! ## Session provider (`AwsSession`, source lines 33-73) -/

/-- The fields an `AwsSession` instance holds after `__init__` succeeds.
The `--profile` click option has no default, so an absent flag arrives as
Python `None`: the profile is an `Option String`. -/
structure AwsSession where
  profile : Option String
  region : String
  authentication : String
deriving DecidableEq, Repr

/-- `AwsSession.__init__` (source lines 36-47). Python defaults
`region='ap-southeast-2'`, `authentication='sso'` are passed explicitly at
call sites here. An authentication value other than `'sso'`/`'cli'` is
logged (`LOGGER...error(...)`) and then `sys.exit(-1)` raises `SystemExit`.
No network activity occurs: the body only assigns attributes. -/
def AwsSession.init (profile : Option String) (region : String)
    (authentication : String) : Except PyExn AwsSession :=
  if authentication = "sso" ∨ authentication = "cli" then
    .ok ⟨profile, region, authentication⟩
  else
    .error (.systemExit (-1))

/-- Calling a Python `logging.Logger` instance as a function, as
`self._instance_logger(e)` does on source line 62. `Logger` defines no
`__call__`, so this raises `TypeError` instead of logging. (The intended
call, used correctly on line 44, is `self._instance_logger.error(e)`.) -/
def loggerCallAsFunction : Except PyExn Unit :=
  .error (.typeError "Logger object is not callable")

/-- The authenticated session handle produced by `AwsSession.cli`. -/
structure BotoSession where
  profile : Option String
  region : String
deriving DecidableEq, Repr

/-- The external world the pipeline runs against: whether the named profile
resolves (`boto3.Session(profile_name=...)` raises `ProfileNotFound` when it
does not), the account's bucket names in the order `list_buckets` returns
them, and the behaviour of CloudWatch `get_metric_statistics`. -/
structure Env where
  profileExists : Option String → Bool
  accountBuckets : List String
  cwClient : CwCall → Except PyExn CwResponse

/-- `AwsSession.cli` (source lines 49-73). When the profile does not resolve,
`ProfileNotFound` is caught; the handler executes `self._instance_logger(e)`
— which raises `TypeError` (the logger instance is not callable) — so the
following `sys.exit(-1)` on line 63 is never reached and the `TypeError`
propagates uncaught. The credential-cache wiring (lines 51-53, 65-71) is a
local filesystem concern with no bearing on any claim and is not modelled. -/
def AwsSession.cli (env : Env) (s : AwsSession) : Except PyExn BotoSession :=
  if env.profileExists s.profile then
    .ok ⟨s.profile, s.region⟩
  else
    match loggerCallAsFunction with
    | .error e => .error e
    | .ok _ => .error (.systemExit (-1))

/-! ## Report builder (`query_bucket`, source lines 144-182) -/

/-- Python truthiness of the click `--bucket` value: `None` and the empty
string are falsy (source line 151, `if bucket:`). -/
def pyTruthy : Option String → Bool
  | none => false
  | some s => s ≠ ""

/-- The working set of bucket names (source lines 151-158): the single
supplied bucket when the option is truthy, otherwise every bucket name from
`list_buckets`, in the order the API returned them. -/
def selectBuckets (bucket : Option String) (env : Env) : List String :=
  match bucket with
  | some b => if b ≠ "" then [b] else env.accountBuckets
  | none => env.accountBuckets

/-- Floor of a rational (denominators are positive, so Euclidean division of
the numerator by the denominator is floor division). -/
def ratFloor (q : ℚ) : Int :=
  Int.ediv q.num q.den

/-- Python `int()` on a number: truncation toward zero. -/
def pyTrunc (q : ℚ) : Int :=
  if 0 ≤ q then ratFloor q else -(ratFloor (-q))

/-- Python `int()` on a `PyVal`, as applied on source lines 175-176:
truncates a number, parses a string (raising `ValueError` when it is not an
integer literal), and raises `TypeError` on `None`. -/
def pyInt : PyVal → Except PyExn Int
  | .num q => .ok (pyTrunc q)
  | .str s =>
    match s.toInt? with
    | some n => .ok n
    | none => .error (.valueError "invalid literal for int() with base 10")
  | .nonePy => .error (.typeError "int() argument must be a number, not NoneType")

/-- One rendered table row: `(bucket name, size value, object-count value)`,
holding the raw `['Value']` fields (source lines 168-174). -/
abbrev ReportRow : Type := String × PyVal × PyVal

/-- The mutable state of the report loop: the running totals (source lines
160-161) and the rows added to the `PrettyTable` so far. The per-iteration
alignment assignments (lines 165-167) set fixed presentation attributes
(`l`/`r`/`r`) on the table and are not modelled. -/
structure LoopState where
  bytes_sum : Int
  count_sum : Int
  rows : List ReportRow
deriving DecidableEq

/-- The report loop (source lines 164-176), threading the loop state and the
trace of CloudWatch calls. Per bucket, in Python evaluation order: the row
tuple fetches size then count (lines 171-172), then the totals fetch size and
count AGAIN and truncate each with `int()` (lines 175-176) — four gateway
round-trips per bucket. Any exception raised by a fetch or by `int()`
propagates out of the loop; the calls already issued stay in the trace. -/
def runLoop (cw : CwMetric) : List String → LoopState → List CwCall →
    Except PyExn LoopState × List CwCall
  | [], st, tr => (.ok st, tr)
  | b :: bs, st, tr =>
    let (r1, c1) := cw.get_bucket_size b
    match r1 with
    | .error e => (.error e, tr ++ [c1])
    | .ok sizeRow =>
      let (r2, c2) := cw.get_bucket_object_count b
      match r2 with
      | .error e => (.error e, tr ++ [c1, c2])
      | .ok countRow =>
        let st1 : LoopState :=
          ⟨st.bytes_sum, st.count_sum, st.rows ++ [(b, sizeRow.value, countRow.value)]⟩
        let (r3, c3) := cw.get_bucket_size b
        match r3 with
        | .error e => (.error e, tr ++ [c1, c2, c3])
        | .ok sizeTot =>
          match pyInt sizeTot.value with
          | .error e => (.error e, tr ++ [c1, c2, c3])
          | .ok n =>
            let st2 : LoopState := ⟨st1.bytes_sum + n, st1.count_sum, st1.rows⟩
            let (r4, c4) := cw.get_bucket_object_count b
            match r4 with
            | .error e => (.error e, tr ++ [c1, c2, c3, c4])
            | .ok countTot =>
              match pyInt countTot.value with
              | .error e => (.error e, tr ++ [c1, c2, c3, c4])
              | .ok m =>
                runLoop cw bs ⟨st2.bytes_sum, st2.count_sum + m, st2.rows⟩
                  (tr ++ [c1, c2, c3, c4])

/-- The rendered report (source lines 162, 178-182): the titled
`PrettyTable` — its title, its three column headers, its rows in insertion
order — and the two grand-total quantities. The ASCII layout of the table is
produced by the third-party `prettytable` library and is not reproduced;
title, headers and row sequence are its complete abstract content here. -/
structure Report where
  tableTitle : String
  headers : List String
  rows : List ReportRow
  bytes_sum : Int
  count_sum : Int
deriving DecidableEq

/-- Rounding to the nearest integer, ties to even: the rounding Python's
`format` applies to the last kept decimal digit. -/
def roundHalfEven (q : ℚ) : Int :=
  let f := ratFloor q
  let frac := q - (f : ℚ)
  if frac < 1/2 then f
  else if 1/2 < frac then f + 1
  else if f % 2 = 0 then f else f + 1

/-- Python `f"{x:.2f}"` for a non-special float, modelled on the exact
rational value: round `x * 100` half-to-even and print with two decimal
digits. -/
def format2f (q : ℚ) : String :=
  let cents := roundHalfEven (q * 100)
  let sign := if cents < 0 then "-" else ""
  let a := cents.natAbs
  let ip := a / 100
  let fp := a % 100
  sign ++ toString ip ++ "." ++ (if fp < 10 then "0" else "") ++ toString fp

/-- The grand-total storage line (source line 181): the Python f-string
`f"{bytes_sum / 1024 / 1024 / 1024:.2f}"`. True division of the integer sum
is exact here (modelled in ℚ); `format2f` renders to two decimal places. -/
def Report.storageLine (r : Report) : String :=
  format2f ((r.bytes_sum : ℚ) / 1024 / 1024 / 1024)

/-- The grand-total objects line value (source line 182): the integer
`count_sum` as printed. -/
def Report.objectsLine (r : Report) : String :=
  toString r.count_sum

/-- `query_bucket` (source lines 144-182), the whole pipeline: construct the
session provider with the Python defaults, open the session, select the
working set, run the report loop and render. The returned trace lists every
CloudWatch call issued, in order, whether or not the run completed. -/
def query_bucket (env : Env) (profile bucket : Option String) :
    Except PyExn Report × List CwCall :=
  match AwsSession.init profile "ap-southeast-2" "sso" with
  | .error e => (.error e, [])
  | .ok aws =>
    match AwsSession.cli env aws with
    | .error e => (.error e, [])
    | .ok _session =>
      let cw : CwMetric := ⟨env.cwClient⟩
      let buckets := selectBuckets bucket env
      match runLoop cw buckets ⟨0, 0, []⟩ [] with
      | (.error e, tr) => (.error e, tr)
      | (.ok st, tr) =>
        (.ok { tableTitle := "S3 bucket metrics",
               headers := ["Bucket name", "Size [Bytes]", "Object count"],
               rows := st.rows,
               bytes_sum := st.bytes_sum,
               count_sum := st.count_sum }, tr)

/-! ## Spec-side observation helpers

These re-express, independently of the loop, what one deterministic fetch of
each metric yields, so that theorems can compare the pipeline's output with a
recomputation from the environment. -/

/-- The size sample a fetch for bucket `b` yields in environment `env`. -/
def sizeFetch (env : Env) (b : String) : Except PyExn MetricSample :=
  (CwMetric.get_bucket_size ⟨env.cwClient⟩ b).1

/-- The object-count sample a fetch for bucket `b` yields in `env`. -/
def countFetch (env : Env) (b : String) : Except PyExn MetricSample :=
  (CwMetric.get_bucket_object_count ⟨env.cwClient⟩ b).1

/-- Both metric fetches for bucket `b` succeed and carry numeric values
(the well-behaved-gateway situation every report run needs to finish). -/
def goodAt (env : Env) (b : String) : Bool :=
  (match sizeFetch env b with
   | .ok ⟨.num _, _⟩ => true
   | _ => false) &&
  (match countFetch env b with
   | .ok ⟨.num _, _⟩ => true
   | _ => false)

/-- The numeric size value fetched for `b` (0 when not a successful numeric
fetch; under `goodAt` this is exact). -/
def sizeValQ (env : Env) (b : String) : ℚ :=
  match sizeFetch env b with
  | .ok ⟨.num q, _⟩ => q
  | _ => 0

/-- The numeric object-count value fetched for `b`. -/
def countValQ (env : Env) (b : String) : ℚ :=
  match countFetch env b with
  | .ok ⟨.num q, _⟩ => q
  | _ => 0

/-- The raw row values fetched for `b` (meaningful under `goodAt`). -/
def rowOf (env : Env) (b : String) : ReportRow :=
  (b,
   match sizeFetch env b with
   | .ok s => s.value
   | _ => .num 0,
   match countFetch env b with
   | .ok s => s.value
   | _ => .num 0)

/-- The CloudWatch call describing one size fetch for `b`. -/
def sizeCall (b : String) : CwCall :=
  ⟨b, "StandardStorage", "BucketSizeBytes", "Sum"⟩

/-- The CloudWatch call describing one object-count fetch for `b`. -/
def countCall (b : String) : CwCall :=
  ⟨b, "AllStorageTypes", "NumberOfObjects", "Sum"⟩

/-- The four calls one loop iteration issues for bucket `b`, in source
order: size and count for the row (lines 171-172), size and count again for
the totals (lines 175-176). -/
def iterationCalls (b : String) : List CwCall :=
  [sizeCall b, countCall b, sizeCall b, countCall b]

/-- Independent recomputation of the byte grand total: the sum over the
working set of the truncated size values (source line 175). -/
def specBytesTotal (env : Env) (bs : List String) : Int :=
  (bs.map (fun b => pyTrunc (sizeValQ env b))).sum

/-- Independent recomputation of the object-count grand total (source
line 176). -/
def specCountTotal (env : Env) (bs : List String) : Int :=
  (bs.map (fun b => pyTrunc (countValQ env b))).sum

/-! ## Concrete environments used by witnesses and counterexamples -/

/-- A well-formed CloudWatch response holding exactly one datapoint with a
`Sum` value and a `Unit`. -/
def respNum (v : ℚ) (u : String) : CwResponse :=
  ⟨some [[("Sum", PyVal.num v), ("Unit", PyVal.str u)]]⟩

/-- An account with buckets `a`, `b`; sizes 1024 and 2048 bytes, object
counts 5 and 10 — the scenario of the grand-total claim. -/
def envAB : Env where
  profileExists := fun _ => true
  accountBuckets := ["a", "b"]
  cwClient := fun c =>
    if c.metric = "BucketSizeBytes" then
      .ok (respNum (if c.bucket = "a" then 1024 else 2048) "Bytes")
    else
      .ok (respNum (if c.bucket = "a" then 5 else 10) "Count")

/-- An account holding the single bucket `a` (sizes/counts as in `envAB`). -/
def envOne : Env where
  profileExists := fun _ => true
  accountBuckets := ["a"]
  cwClient := envAB.cwClient

/-- An account with no buckets; the CloudWatch client is never reached (it
errors if it were). -/
def envEmpty : Env where
  profileExists := fun _ => true
  accountBuckets := []
  cwClient := fun _ => .error (.apiError "unreachable")

/-- An environment in which no profile resolves: `boto3.Session` raises
`ProfileNotFound` whatever profile is named. -/
def envGhost : Env where
  profileExists := fun _ => false
  accountBuckets := ["a"]
  cwClient := envAB.cwClient

/-- One bucket `a` whose size datapoint carries the fractional value 1536.5
and whose count datapoint carries 2.75 — exercising `int()` truncation of
the totals against the untruncated row. -/
def envFrac : Env where
  profileExists := fun _ => true
  accountBuckets := ["a"]
  cwClient := fun c =>
    if c.metric = "BucketSizeBytes" then
      .ok (respNum (3073/2) "Bytes")
    else
      .ok (respNum (11/4) "Count")

/-- An account whose CloudWatch has no datapoints at all: every query
returns an empty datapoint list, so every fetch degrades to the fallback. -/
def envNoData : Env where
  profileExists := fun _ => true
  accountBuckets := ["a", "b"]
  cwClient := fun _ => .ok ⟨some []⟩

/- The Batteries definitions of rational arithmetic are `@[irreducible]`;
concrete evaluation by `decide` needs them unfolded. The section extends to
the end of the file. -/
section RatUnfold

attribute [local semireducible] Rat.add Rat.mul Rat.inv Rat.sub

instance {e a : Type} [DecidableEq e] [DecidableEq a] : DecidableEq (Except e a)
  | .error x, .error y =>
    if h : x = y then .isTrue (by rw [h])
    else .isFalse (by intro c; injection c; exact h (by assumption))
  | .error _, .ok _ => .isFalse (by intro c; cases c)
  | .ok _, .error _ => .isFalse (by intro c; cases c)
  | .ok x, .ok y =>
    if h : x = y then .isTrue (by rw [h])
    else .isFalse (by intro c; injection c; exact h (by assumption))

/-! ## Loop lemmas -/

/-- `get_bucket_size` unfolded to its outcome/call pair. -/
theorem get_bucket_size_pair (cw : CwMetric) (b : String) :
    cw.get_bucket_size b =
      (get_s3_metricResult (cw.client (sizeCall b)) "Sum", sizeCall b) := rfl

/-- `get_bucket_object_count` unfolded to its outcome/call pair. -/
theorem get_bucket_object_count_pair (cw : CwMetric) (b : String) :
    cw.get_bucket_object_count b =
      (get_s3_metricResult (cw.client (countCall b)) "Sum", countCall b) := rfl

/-- Any completed run of the report loop visits the bucket list in order:
the names of the appended rows are exactly the buckets, and the trace grows
by the four calls of `iterationCalls` per bucket. -/
theorem runLoop_ok_shape (cw : CwMetric) (bs : List String) :
    ∀ (st : LoopState) (tr : List CwCall) (st' : LoopState) (tr' : List CwCall),
      runLoop cw bs st tr = (.ok st', tr') →
      st'.rows.map Prod.fst = st.rows.map Prod.fst ++ bs ∧
        tr' = tr ++ bs.flatMap iterationCalls := by
  induction bs with
  | nil =>
    intro st tr st' tr' h
    simp only [runLoop, Prod.mk.injEq, Except.ok.injEq] at h
    obtain ⟨rfl, rfl⟩ := h
    simp
  | cons b bs ih =>
    intro st tr st' tr' h
    simp only [runLoop, get_bucket_size_pair, get_bucket_object_count_pair] at h
    cases h1 : get_s3_metricResult (cw.client (sizeCall b)) "Sum" with
    | error e => simp [h1] at h
    | ok sizeRow =>
      simp only [h1] at h
      cases h2 : get_s3_metricResult (cw.client (countCall b)) "Sum" with
      | error e => simp [h2] at h
      | ok countRow =>
        simp only [h2] at h
        cases h3 : pyInt sizeRow.value with
        | error e => simp [h1, h3] at h
        | ok n =>
          simp only [h1, h3] at h
          cases h4 : pyInt countRow.value with
          | error e => simp [h2, h4] at h
          | ok m =>
            simp only [h2, h4] at h
            obtain ⟨hrows, htr⟩ := ih _ _ _ _ h
            constructor
            · simpa [List.map_append] using hrows
            · simp only [htr, iterationCalls, List.flatMap_cons, List.append_assoc,
                List.cons_append, List.nil_append]

/-- When both fetches of every listed bucket succeed with numeric values,
the loop completes and its final state is computed exactly: rows hold the
raw fetched values bucket by bucket, and each total is the running sum of
the `int()`-truncated fetched values. -/
theorem runLoop_eq_of_goodAt (env : Env) (bs : List String)
    (h : ∀ b ∈ bs, goodAt env b = true) :
    ∀ (st : LoopState) (tr : List CwCall),
      runLoop ⟨env.cwClient⟩ bs st tr =
        (.ok ⟨st.bytes_sum + specBytesTotal env bs,
              st.count_sum + specCountTotal env bs,
              st.rows ++ bs.map (rowOf env)⟩,
         tr ++ bs.flatMap iterationCalls) := by
  induction bs with
  | nil =>
    intro st tr
    simp [runLoop, specBytesTotal, specCountTotal]
  | cons b bs ih =>
    intro st tr
    have hb : goodAt env b = true := h b (List.mem_cons_self b bs)
    have hbs : ∀ x ∈ bs, goodAt env x = true := fun x hx => h x (List.mem_cons_of_mem b hx)
    simp only [goodAt, Bool.and_eq_true] at hb
    obtain ⟨hs, hc⟩ := hb
    cases h1 : sizeFetch env b with
    | error e => rw [h1] at hs; simp at hs
    | ok sizeRow =>
      rw [h1] at hs
      cases h2 : countFetch env b with
      | error e => rw [h2] at hc; simp at hc
      | ok countRow =>
        rw [h2] at hc
        obtain ⟨v1, u1⟩ := sizeRow
        obtain ⟨v2, u2⟩ := countRow
        cases v1 with
        | num qs =>
          cases v2 with
          | num qc =>
            have e1 : get_s3_metricResult (env.cwClient (sizeCall b)) "Sum" =
                .ok ⟨.num qs, u1⟩ := h1
            have e2 : get_s3_metricResult (env.cwClient (countCall b)) "Sum" =
                .ok ⟨.num qc, u2⟩ := h2
            simp only [runLoop, get_bucket_size_pair, get_bucket_object_count_pair,
              e1, e2, pyInt, ih hbs]
            simp only [Prod.mk.injEq, Except.ok.injEq, LoopState.mk.injEq]
            refine ⟨⟨?_, ?_, ?_⟩, ?_⟩
            · simp only [specBytesTotal, List.map_cons, List.sum_cons, sizeValQ, h1]
              ring
            · simp only [specCountTotal, List.map_cons, List.sum_cons, countValQ, h2]
              ring
            · simp [rowOf, h1, h2]
            · simp [iterationCalls]
          | str s => simp at hc
          | nonePy => simp at hc
        | str s => simp at hs
        | nonePy => simp at hs

/-! ## Pipeline lemmas -/

/-- `query_bucket` unfolded past the session phase: with the fixed defaults
the constructor always succeeds, and the session opens iff the profile
resolves (otherwise the broken handler's `TypeError` escapes). -/
theorem query_bucket_eq (env : Env) (profile bucket : Option String) :
    query_bucket env profile bucket =
      if env.profileExists profile then
        match runLoop ⟨env.cwClient⟩ (selectBuckets bucket env) ⟨0, 0, []⟩ [] with
        | (.error e, tr) => (.error e, tr)
        | (.ok st, tr) =>
          (.ok ⟨"S3 bucket metrics", ["Bucket name", "Size [Bytes]", "Object count"],
                st.rows, st.bytes_sum, st.count_sum⟩, tr)
      else (.error (.typeError "Logger object is not callable"), []) := by
  unfold query_bucket AwsSession.init AwsSession.cli loggerCallAsFunction
  cases hp : env.profileExists profile <;> simp [hp]

/-- Any run of `query_bucket` that produces a report visited exactly the
working set, in order: the row names equal `selectBuckets` and the trace is
its four-calls-per-bucket expansion. -/
theorem query_bucket_rows_names (env : Env) (profile bucket : Option String)
    (r : Report) (tr : List CwCall)
    (h : query_bucket env profile bucket = (.ok r, tr)) :
    r.rows.map Prod.fst = selectBuckets bucket env ∧
      tr = (selectBuckets bucket env).flatMap iterationCalls := by
  rw [query_bucket_eq] at h
  cases hp : env.profileExists profile with
  | false => rw [hp] at h; simp at h
  | true =>
    rw [hp] at h
    simp only [if_true] at h
    cases hrun : runLoop ⟨env.cwClient⟩ (selectBuckets bucket env) ⟨0, 0, []⟩ [] with
    | mk res tr0 =>
      rw [hrun] at h
      cases res with
      | error e => simp at h
      | ok st =>
        simp only [Prod.mk.injEq, Except.ok.injEq] at h
        obtain ⟨hr, rfl⟩ := h
        have hshape := runLoop_ok_shape ⟨env.cwClient⟩ (selectBuckets bucket env) _ _ _ _ hrun
        constructor
        · rw [← hr]; simpa using hshape.1
        · simpa using hshape.2

/-- With a resolving profile and a well-behaved gateway over the working
set, the whole pipeline's output is computed in closed form. -/
theorem query_bucket_ok_of_goodAt (env : Env) (profile bucket : Option String)
    (hp : env.profileExists profile = true)
    (h : ∀ b ∈ selectBuckets bucket env, goodAt env b = true) :
    query_bucket env profile bucket =
      (.ok ⟨"S3 bucket metrics", ["Bucket name", "Size [Bytes]", "Object count"],
            (selectBuckets bucket env).map (rowOf env),
            specBytesTotal env (selectBuckets bucket env),
            specCountTotal env (selectBuckets bucket env)⟩,
       (selectBuckets bucket env).flatMap iterationCalls) := by
  rw [query_bucket_eq, hp]
  simp only [if_true]
  rw [runLoop_eq_of_goodAt env (selectBuckets bucket env) h ⟨0, 0, []⟩ []]
  simp

/-- Under `goodAt`, the row appended for `b` carries the raw (untruncated)
numeric values of the two fetches. -/
theorem rowOf_eq_of_goodAt (env : Env) (b : String) (hb : goodAt env b = true) :
    rowOf env b = (b, .num (sizeValQ env b), .num (countValQ env b)) := by
  simp only [goodAt, Bool.and_eq_true] at hb
  obtain ⟨hs, hc⟩ := hb
  unfold rowOf sizeValQ countValQ
  cases h1 : sizeFetch env b with
  | error e => rw [h1] at hs; simp at hs
  | ok sizeRow =>
    rw [h1] at hs
    cases h2 : countFetch env b with
    | error e => rw [h2] at hc; simp at hc
    | ok countRow =>
      rw [h2] at hc
      obtain ⟨v1, u1⟩ := sizeRow
      obtain ⟨v2, u2⟩ := countRow
      cases v1 with
      | num qs =>
        cases v2 with
        | num qc => simp
        | str s => simp at hc
        | nonePy => simp at hc
      | str s => simp at hs
      | nonePy => simp at hs

/-! ## Claims -/

/-- C1 (counterexample): `get_s3_metric` does NOT map every failure to the
fallback sample — an error raised by the underlying `get_metric_statistics`
call (which sits outside the `try:` block) propagates to the caller
unchanged instead of becoming `{value: 0, unit: absent}`. -/
theorem c1_error_propagates :
    get_s3_metricResult (.error (.apiError "ConnectionError")) "Sum" =
        .error (.apiError "ConnectionError") ∧
      get_s3_metricResult (.error (.apiError "ConnectionError")) "Sum" ≠
        .ok ⟨.num 0, .nonePy⟩ :=
  ⟨rfl, by decide⟩

/-- C1 (amended): once the monitoring call itself has returned a response,
`get_s3_metric` never raises: any failure to extract a usable data point
from the response (empty result set, missing keys — any malformed shape)
yields the fallback sample `{value: 0, unit: absent}`; but an exception
raised by the query call itself propagates to the caller unchanged. -/
theorem c1_fallback_on_extraction_failure (resp : CwResponse) (statistic : String)
    (hfail : extractSample resp statistic = none) :
    get_s3_metricResult (.ok resp) statistic = .ok ⟨.num 0, .nonePy⟩ ∧
      ∀ e : PyExn, get_s3_metricResult (.error e) statistic = .error e :=
  ⟨by simp [get_s3_metricResult, hfail], fun _ => rfl⟩

/-- C1 witness: the empty result set hits the fallback. -/
theorem c1_fallback_witness :
    extractSample ⟨some []⟩ "Sum" = none ∧
      get_s3_metricResult (.ok ⟨some []⟩) "Sum" = .ok ⟨.num 0, .nonePy⟩ :=
  ⟨rfl, (c1_fallback_on_extraction_failure ⟨some []⟩ "Sum" rfl).1⟩

/-- C2 (counterexample): the loop does NOT issue exactly two metrics-gateway
calls per bucket: a completed run over the single bucket `a` issues four. -/
theorem c2_four_calls_per_bucket :
    (query_bucket envOne none none).1.isOk = true ∧
      (query_bucket envOne none none).2.length = 4 ∧
      (query_bucket envOne none none).2.length ≠ 2 := by
  decide

/-- C2 (amended): in every completed report run the trace is exactly four
gateway calls per bucket of the working set — each of the two metrics is
fetched exactly twice per bucket (once for the table row, once for the
grand totals); there is no batching and no caching. -/
theorem c2_each_metric_twice (env : Env) (profile bucket : Option String)
    (r : Report) (tr : List CwCall)
    (h : query_bucket env profile bucket = (.ok r, tr)) :
    tr = (selectBuckets bucket env).flatMap iterationCalls ∧
      ∀ b : String, (iterationCalls b).count (sizeCall b) = 2 ∧
        (iterationCalls b).count (countCall b) = 2 := by
  refine ⟨(query_bucket_rows_names env profile bucket r tr h).2, fun b => ⟨?_, ?_⟩⟩ <;>
    simp [iterationCalls, sizeCall, countCall, List.count_cons, List.count_nil]

/-- C2 witness: the one-bucket run, its four-call trace, and the two
fetches of the size metric within it. -/
theorem c2_each_metric_twice_witness :
    query_bucket envOne none none =
      (.ok ⟨"S3 bucket metrics", ["Bucket name", "Size [Bytes]", "Object count"],
            [("a", .num 1024, .num 5)], 1024, 5⟩,
       ["a"].flatMap iterationCalls) ∧
      (["a"].flatMap iterationCalls).count (sizeCall "a") = 2 := by
  have hq : query_bucket envOne none none =
      (.ok ⟨"S3 bucket metrics", ["Bucket name", "Size [Bytes]", "Object count"],
            [("a", .num 1024, .num 5)], 1024, 5⟩,
       ["a"].flatMap iterationCalls) := by decide
  exact ⟨hq, ((c2_each_metric_twice envOne none none _ _ hq).2 "a").1⟩

/-- C3: with a profile absent from the local configuration, the code does
enter the `ProfileNotFound` handler, but the handler calls the logger
INSTANCE as a function (source line 62, `self._instance_logger(e)`), which
raises `TypeError`: the error is never logged, the `sys.exit(-1)` on line 63
is never executed, and no bucket or metric query runs — the process dies
from the uncaught `TypeError` rather than the logged, deliberate non-zero
exit the claim describes. -/
theorem c3_profile_not_found_handler_typeerror :
    query_bucket envGhost (some "ghost") none =
      (.error (.typeError "Logger object is not callable"), []) ∧
      query_bucket envGhost (some "ghost") none ≠
        (.error (.systemExit (-1)), []) := by
  decide

/-- C4: constructing `AwsSession` with an authentication mode outside
{"sso", "cli"} raises `SystemExit(-1)` — a non-zero exit — and the
constructor performs no network operation (it is a pure attribute
assignment); with "sso" or "cli" it succeeds and stores the mode. -/
theorem c4_authentication_gate (p : Option String) (reg a : String)
    (h : a ≠ "sso" ∧ a ≠ "cli") :
    AwsSession.init p reg a = .error (.systemExit (-1)) ∧
      (-1 : Int) ≠ 0 ∧
      AwsSession.init p reg "sso" = .ok ⟨p, reg, "sso"⟩ ∧
      AwsSession.init p reg "cli" = .ok ⟨p, reg, "cli"⟩ := by
  refine ⟨?_, by decide, by simp [AwsSession.init], by simp [AwsSession.init]⟩
  simp [AwsSession.init, h.1, h.2]

/-- C4 witness: the mode "token" is rejected with exit code -1. -/
theorem c4_authentication_gate_witness :
    (("token" ≠ "sso" ∧ "token" ≠ "cli") ∧
      AwsSession.init (some "dev") "ap-southeast-2" "token" =
        .error (.systemExit (-1))) :=
  ⟨by decide,
   (c4_authentication_gate (some "dev") "ap-southeast-2" "token" (by decide)).1⟩

/-- C5: a successful response whose datapoint list is a single datapoint
carrying value V for the requested statistic and unit U makes
`get_s3_metric` return exactly `{value: V, unit: U}` — no rounding, no
transformation of either component. -/
theorem c5_single_datapoint_exact (dp : Datapoint) (statistic : String)
    (V : ℚ) (U : String)
    (hv : dp.lookup statistic = some (.num V))
    (hu : dp.lookup "Unit" = some (.str U)) :
    get_s3_metricResult (.ok ⟨some [dp]⟩) statistic = .ok ⟨.num V, .str U⟩ := by
  simp [get_s3_metricResult, extractSample, Option.bind, hv, hu]

/-- C5 witness: a 42-byte datapoint comes back exactly as 42 "Bytes". -/
theorem c5_single_datapoint_witness :
    (([("Sum", PyVal.num 42), ("Unit", PyVal.str "Bytes")] : Datapoint).lookup "Sum" =
        some (.num 42)) ∧
      get_s3_metricResult
          (.ok ⟨some [[("Sum", PyVal.num 42), ("Unit", PyVal.str "Bytes")]]⟩) "Sum" =
        .ok ⟨.num 42, .str "Bytes"⟩ :=
  ⟨rfl, c5_single_datapoint_exact _ "Sum" 42 "Bytes" rfl rfl⟩

/-- C6: for every completed run, the grand-total storage line is the byte
sum (each bucket's fetched size truncated by `int()`, then summed) divided
by 1024³ and formatted to two decimal places, and the objects line is the
integer count sum; the witness instantiates the ["a","b"] scenario with
sizes 1024/2048 and counts 5/10, reading "0.00" and 15. -/
theorem c6_grand_totals (env : Env) (profile bucket : Option String)
    (hp : env.profileExists profile = true)
    (h : ∀ b ∈ selectBuckets bucket env, goodAt env b = true) :
    ((query_bucket env profile bucket).1.map
        (fun r => (r.storageLine, r.objectsLine))) =
      .ok (format2f ((specBytesTotal env (selectBuckets bucket env) : ℚ)
             / 1024 / 1024 / 1024),
           toString (specCountTotal env (selectBuckets bucket env))) := by
  rw [query_bucket_ok_of_goodAt env profile bucket hp h]
  rfl

/-- C6 witness: buckets ["a","b"], sizes 1024 and 2048 bytes, counts 5 and
10: the summary lines read "0.00" and "15". -/
theorem c6_grand_totals_witness :
    ((query_bucket envAB none none).1.map
        (fun r => (r.storageLine, r.objectsLine))) = .ok ("0.00", "15") := by
  have h := c6_grand_totals envAB none none (by decide) (by decide)
  rw [h]
  decide

/-- C7 (counterexample): the claim fails for the empty-string identifier:
`--bucket ""` is falsy in the `if bucket:` check (source line 151), so the
working set is the full enumeration — over the two-bucket account the
report has two rows, not exactly one. -/
theorem c7_empty_string_lists_all :
    selectBuckets (some "") envAB = ["a", "b"] ∧
      ((query_bucket envAB none (some "")).1.map (fun r => r.rows.length)) = .ok 2 ∧
      ((query_bucket envAB none (some "")).1.map (fun r => r.rows.length)) ≠ .ok 1 := by
  decide

/-- C7 (amended): for every NON-empty supplied bucket identifier X, the
working set is the single-element sequence [X] with no existence check, and
every completed run renders exactly one row, named X, whatever the account
holds; the empty string instead falls through to full enumeration. -/
theorem c7_single_row (env : Env) (profile : Option String) (X : String)
    (hX : X ≠ "") (r : Report) (tr : List CwCall)
    (h : query_bucket env profile (some X) = (.ok r, tr)) :
    selectBuckets (some X) env = [X] ∧
      r.rows.map Prod.fst = [X] ∧ r.rows.length = 1 := by
  have hsel : selectBuckets (some X) env = [X] := by simp [selectBuckets, hX]
  have hn := (query_bucket_rows_names env profile (some X) r tr h).1
  rw [hsel] at hn
  refine ⟨hsel, hn, ?_⟩
  simpa using congrArg List.length hn

/-- C7 witness: the bucket name "ghost" is absent from the `envNoData`
account, yet the run produces exactly the one zero-valued row for it. -/
theorem c7_single_row_witness :
    ("ghost" ≠ "") ∧
      query_bucket envNoData none (some "ghost") =
        (.ok ⟨"S3 bucket metrics", ["Bucket name", "Size [Bytes]", "Object count"],
              [("ghost", .num 0, .num 0)], 0, 0⟩, iterationCalls "ghost") ∧
      [("ghost", PyVal.num 0, PyVal.num 0)].length = 1 := by
  have hq : query_bucket envNoData none (some "ghost") =
      (.ok ⟨"S3 bucket metrics", ["Bucket name", "Size [Bytes]", "Object count"],
            [("ghost", .num 0, .num 0)], 0, 0⟩, iterationCalls "ghost") := by decide
  have h := c7_single_row envNoData none "ghost" (by decide) _ _ hq
  exact ⟨by decide, hq, h.2.2⟩

/-- C8: for every run that renders a table, the sequence of bucket names in
the rows equals the selected working set (enumerated or explicitly
supplied), in order — rows are appended in enumeration order and nothing in
the pipeline sorts. -/
theorem c8_row_order (env : Env) (profile bucket : Option String)
    (r : Report) (tr : List CwCall)
    (h : query_bucket env profile bucket = (.ok r, tr)) :
    r.rows.map Prod.fst = selectBuckets bucket env :=
  (query_bucket_rows_names env profile bucket r tr h).1

/-- C8 witness: rows for the enumeration ["a","b"] come out named a then b. -/
theorem c8_row_order_witness :
    query_bucket envAB none none =
      (.ok ⟨"S3 bucket metrics", ["Bucket name", "Size [Bytes]", "Object count"],
            [("a", .num 1024, .num 5), ("b", .num 2048, .num 10)], 3072, 15⟩,
       ["a", "b"].flatMap iterationCalls) ∧
      [("a", PyVal.num 1024, PyVal.num 5),
        ("b", PyVal.num 2048, PyVal.num 10)].map Prod.fst =
        selectBuckets none envAB := by
  have hq : query_bucket envAB none none =
      (.ok ⟨"S3 bucket metrics", ["Bucket name", "Size [Bytes]", "Object count"],
            [("a", .num 1024, .num 5), ("b", .num 2048, .num 10)], 3072, 15⟩,
       ["a", "b"].flatMap iterationCalls) := by decide
  exact ⟨hq, c8_row_order envAB none none _ _ hq⟩

/-- C9: over an account with no buckets, the loop runs zero iterations (no
gateway call at all) and the program still renders the titled table with
its three column headers and no rows, then the grand totals "0.00" and 0,
without error. -/
theorem c9_empty_account (env : Env) (profile : Option String)
    (hp : env.profileExists profile = true)
    (hb : env.accountBuckets = []) :
    query_bucket env profile none =
      (.ok ⟨"S3 bucket metrics", ["Bucket name", "Size [Bytes]", "Object count"],
            [], 0, 0⟩, []) ∧
      ((query_bucket env profile none).1.map
          (fun r => (r.storageLine, r.objectsLine))) = .ok ("0.00", "0") := by
  have hsel : selectBuckets none env = [] := hb
  have h := query_bucket_ok_of_goodAt env profile none hp
    (by rw [hsel]; intro b hmem; cases hmem)
  rw [hsel] at h
  simp only [List.map_nil, List.flatMap_nil, specBytesTotal, specCountTotal,
    List.sum_nil] at h
  refine ⟨h, ?_⟩
  rw [h]
  decide

/-- C9 witness: the concrete empty account. -/
theorem c9_empty_account_witness :
    envEmpty.accountBuckets = [] ∧
      query_bucket envEmpty none none =
        (.ok ⟨"S3 bucket metrics", ["Bucket name", "Size [Bytes]", "Object count"],
              [], 0, 0⟩, []) :=
  ⟨rfl, (c9_empty_account envEmpty none rfl rfl).1⟩

/-- C10: each bucket's table row holds the raw, untruncated fetched values,
while each grand total accumulates the `int()` truncation of the fetched
value bucket by bucket — a fractional metric value shows untruncated in its
row but contributes only its integer part to the totals. -/
theorem c10_row_raw_totals_truncated (env : Env) (profile bucket : Option String)
    (hp : env.profileExists profile = true)
    (h : ∀ b ∈ selectBuckets bucket env, goodAt env b = true) :
    ((query_bucket env profile bucket).1.map
        (fun r => (r.rows, r.bytes_sum, r.count_sum))) =
      .ok ((selectBuckets bucket env).map
             (fun b => (b, PyVal.num (sizeValQ env b), PyVal.num (countValQ env b))),
           ((selectBuckets bucket env).map (fun b => pyTrunc (sizeValQ env b))).sum,
           ((selectBuckets bucket env).map (fun b => pyTrunc (countValQ env b))).sum) := by
  rw [query_bucket_ok_of_goodAt env profile bucket hp h]
  have hrows : (selectBuckets bucket env).map (rowOf env) =
      (selectBuckets bucket env).map
        (fun b => (b, PyVal.num (sizeValQ env b), PyVal.num (countValQ env b))) :=
    List.map_congr_left (fun b hb => rowOf_eq_of_goodAt env b (h b hb))
  simp [hrows, specBytesTotal, specCountTotal, Except.map]

/-- C10 witness: the size datapoint 1536.5 appears untruncated in the row
yet contributes 1536 to the byte total; the count 2.75 contributes 2. -/
theorem c10_row_raw_totals_truncated_witness :
    ((query_bucket envFrac none none).1.map
        (fun r => (r.rows, r.bytes_sum, r.count_sum))) =
      .ok ([("a", PyVal.num (3073/2), PyVal.num (11/4))], 1536, 2) ∧
      pyTrunc (3073/2) = 1536 ∧ ((3073/2 : ℚ) ≠ (1536 : ℚ)) := by
  refine ⟨?_, by decide, by decide⟩
  have h := c10_row_raw_totals_truncated envFrac none none (by decide) (by decide)
  rw [h]
  decide

end RatUnfold
